import Mathlib

/-!
# Verification of the win-streamshot window-capture library

A shallow embedding of the three source files of the repository
(src/lib.rs, src/wrappers.rs, src/buffer/window/bgr.rs) together with
proofs about the embedded operations.

The operating system is modelled as an oracle (`OsEnv`) answering each
GDI / user32 call the code makes.  Every embedded operation additionally
returns the list of OS calls it performed (`OsEvent`), in program order,
including the release calls issued by the Drop implementations of the
RAII handle wrappers on each exit path.
-/

set_option autoImplicit false

namespace WinStreamshot

/-- Wrap an unbounded integer into the i32 range, modelling Rust release-mode
two-complement wrap-around of `i32` arithmetic. -/
def wrap32 (x : Int) : Int :=
  (x + 2147483648) % 4294967296 - 2147483648

/-- The Rust cast `as usize` from `i32` (sign-extension to 64 bits, then
reinterpreted as an unsigned quantity). -/
def usizeCast (x : Int) : Nat :=
  (x % 18446744073709551616).toNat

/-- The Rust cast `as u32` from `i32` (two-complement reinterpretation). -/
def u32Cast (x : Int) : Nat :=
  (x % 4294967296).toNat

/-- The `RECT` structure filled in by `GetWindowRect`.  All four fields are
`i32` in the source; they are modelled as unbounded integers and wrapped
explicitly where the code does arithmetic on them. -/
structure RECT where
  left : Int
  top : Int
  right : Int
  bottom : Int
deriving DecidableEq

/-- The error taxonomy of the specification.  The Rust code returns a single
`windows::core::Error` everywhere; the constructor used here records the call
site at which the error was produced, which is exactly the information the
specification names (`HandleAcquisitionFailed`, `RenderFailed`, ...). -/
inductive CaptureError where
  | handleAcquisitionFailed
  | geometryUnavailable
  | selectionFailed
  | renderFailed
  | extractionFailed
  | enumerationFailed
deriving DecidableEq

/-- One OS call performed by the embedded code, with the arguments the code
passes.  `releaseDC`, `deleteDC` and `deleteObject` are the calls issued by
the Drop implementations of the handle wrappers. -/
inductive OsEvent where
  | setDpiAwareness
  | getWindowRect (hwnd : Int)
  | getDC (hwnd : Int)
  | createCompatibleDC (hdc : Nat)
  | createCompatibleBitmap (hdc : Nat) (w h : Int)
  | selectObject (hdc hbm : Nat)
  | printWindow (hwnd : Int) (hdc : Nat) (flags : Nat)
  | getDIBits (hdc hbm : Nat) (startScan linesRequested : Nat)
      (biWidth biHeight : Int) (biBitCount : Nat)
  | releaseDC (hwnd : Int) (hdc : Nat)
  | deleteDC (hdc : Nat)
  | deleteObject (h : Nat)
deriving DecidableEq

/-- The value of the Win32 constant `PW_RENDERFULLCONTENT`. -/
def PW_RENDERFULLCONTENT : Nat := 2

/-- The numeric value of the Win32 constant `ERROR_INVALID_PARAMETER`,
compared against the `GetDIBits` return value in the source
(`gdb == ERROR_INVALID_PARAMETER.0 as i32`). -/
def ERROR_INVALID_PARAMETER : Int := 87

/-- One top-level window as the OS reports it during `EnumWindows`:
its handle, whether `IsWindowVisible` holds, the length reported by
`GetWindowTextLengthW`, the title text `GetWindowTextW` would copy, and
whether `GetWindowTextW` fails (returns 0). -/
structure OsWindow where
  handle : Int
  visible : Bool
  textLength : Nat
  text : List Char
  textReadFails : Bool
deriving DecidableEq

/-- The OS oracle: the answer the OS gives to each call the embedded code
can make.  `none` for a handle-returning call models an invalid handle
(`is_invalid()` in the source); `getDIBitsResult` is the `i32` return value
of `GetDIBits` and `dibBytes` the bytes it writes through the raw buffer
pointer on success. -/
structure OsEnv where
  enumWindows : List OsWindow
  enumAborts : Bool
  getWindowRect : Int → Option RECT
  getDC : Int → Option Nat
  createCompatibleDC : Nat → Option Nat
  createCompatibleBitmap : Nat → Int → Int → Option Nat
  selectObjectOk : Nat → Nat → Bool
  printWindowOk : Int → Nat → Bool
  getDIBitsResult : Int
  dibBytes : List UInt8

/-- A `{handle, title}` window record (`struct Window` in src/lib.rs). -/
structure Window where
  handle : Int
  name : List Char
deriving DecidableEq

/-- The UTF-16 NUL unit left in unwritten positions of the title buffer
(`vec![0; len + 1]` in the source). -/
def nulChar : Char := Char.ofNat 0

/-- The contents of the `name_buf` vector of `wl_callback` after
`GetWindowTextW` ran: the buffer has `textLength + 1` slots, the OS copies at
most `textLength` characters of the title, and the remaining slots keep the
zero they were initialised with. -/
def writtenTitleBuf (w : OsWindow) : List Char :=
  let copied := w.text.take w.textLength
  copied ++ List.replicate (w.textLength + 1 - copied.length) nulChar

/-- The title string `wl_callback` builds: `split_last` drops the final slot
of the buffer (the NUL terminator position) and the rest is converted to a
string. -/
def readTitle (w : OsWindow) : List Char :=
  (writtenTitleBuf w).dropLast

/-- The per-window body of the `EnumWindows` callback `wl_callback` in
src/lib.rs: skip invisible windows, skip windows whose reported title length
is zero, skip windows whose title read fails, otherwise push a
`{handle, title}` record.  `none` models returning `TRUE` without pushing. -/
def wl_callback (w : OsWindow) : Option Window :=
  if w.visible = false then none
  else if w.textLength = 0 then none
  else if w.textReadFails then none
  else some ⟨w.handle, readTitle w⟩

/-- `get_windows` in src/lib.rs: run `EnumWindows` with `wl_callback`; if the
walk itself is aborted by the OS (`EnumWindows` returns `FALSE`) return an
error, otherwise return the accumulated records. -/
def get_windows (env : OsEnv) : Except CaptureError (List Window) :=
  if env.enumAborts then .error .enumerationFailed
  else .ok (env.enumWindows.filterMap wl_callback)

/-- Specification-side predicate: the windows `wl_callback` keeps are exactly
the visible ones with a non-zero reported title length whose title read
succeeds. -/
def keepsWindow (w : OsWindow) : Bool :=
  w.visible && !(w.textLength = 0 : Bool) && !w.textReadFails

/-- The record `wl_callback` appends for a kept window. -/
def windowRecord (w : OsWindow) : Window :=
  ⟨w.handle, readTitle w⟩

/-- The capture session of src/lib.rs (`struct WindowScreenshotBuffer`):
window handle, the width/height measured at construction time (both `i32`)
and the owned pixel buffer. -/
structure WindowScreenshotBuffer where
  handle : Int
  width : Int
  height : Int
  buffer : List UInt8
deriving DecidableEq

/-- In-place overwrite of a Rust `Vec<u8>` of fixed length through a raw
pointer: the first `bytes.length` slots are replaced, the rest keep their
old value, and the vector length never changes. -/
def writeInto (buf bytes : List UInt8) : List UInt8 :=
  bytes.take buf.length ++ buf.drop bytes.length

/-- `WindowScreenshotBuffer::new` (src/lib.rs): set DPI awareness
(best-effort, result ignored), query the window rectangle (error if the OS
cannot report it), derive width and height by `i32` subtraction, and allocate
the pixel buffer as `vec![0; (4 * width * height) as usize]`. -/
def WindowScreenshotBuffer.new (env : OsEnv) (handle : Int) :
    Except CaptureError WindowScreenshotBuffer × List OsEvent :=
  let tr : List OsEvent := [.setDpiAwareness, .getWindowRect handle]
  match env.getWindowRect handle with
  | none => (.error .geometryUnavailable, tr)
  | some rect =>
    let width := wrap32 (rect.right - rect.left)
    let height := wrap32 (rect.bottom - rect.top)
    (.ok { handle := handle, width := width, height := height,
           buffer := List.replicate (usizeCast (wrap32 (wrap32 (4 * width) * height))) 0 },
     tr)

/-- `WindowScreenshotBuffer::read` (src/lib.rs).  Acquires a screen DC for
the window, a compatible memory DC and a compatible bitmap, selects the
bitmap into the memory DC, then calls `GetDIBits` with a `BITMAPINFOHEADER`
requesting 32 bits per pixel and `biHeight = -self.height`.  There is no
`PrintWindow` call in this function in the source.  Each early error return
and the final return run the Drop implementations of the wrappers in scope,
in reverse declaration order; the drop calls appear in the event list at the
position they execute.  The session state is returned alongside the result,
mirroring `&mut self`: only the buffer is ever written, and only on the
success path of `GetDIBits`. -/
def WindowScreenshotBuffer.read (env : OsEnv) (s : WindowScreenshotBuffer) :
    Except CaptureError Unit × WindowScreenshotBuffer × List OsEvent :=
  match env.getDC s.handle with
  | none => (.error .handleAcquisitionFailed, s, [.getDC s.handle])
  | some hdcScreen =>
    match env.createCompatibleDC hdcScreen with
    | none =>
      (.error .handleAcquisitionFailed, s,
        [.getDC s.handle, .createCompatibleDC hdcScreen,
         .releaseDC 0 hdcScreen])
    | some hdc =>
      match env.createCompatibleBitmap hdcScreen s.width s.height with
      | none =>
        (.error .handleAcquisitionFailed, s,
          [.getDC s.handle, .createCompatibleDC hdcScreen,
           .createCompatibleBitmap hdcScreen s.width s.height,
           .deleteDC hdc, .releaseDC 0 hdcScreen])
      | some hbm =>
        if env.selectObjectOk hdc hbm then
          let tr : List OsEvent :=
            [.getDC s.handle, .createCompatibleDC hdcScreen,
             .createCompatibleBitmap hdcScreen s.width s.height,
             .selectObject hdc hbm,
             .getDIBits hdc hbm 0 (u32Cast s.height) s.width (wrap32 (-s.height)) 32,
             .deleteObject hbm, .deleteDC hdc, .releaseDC 0 hdcScreen]
          if env.getDIBitsResult = 0 ∨ env.getDIBitsResult = ERROR_INVALID_PARAMETER then
            (.error .extractionFailed, s, tr)
          else
            (.ok (), { s with buffer := writeInto s.buffer env.dibBytes }, tr)
        else
          (.error .selectionFailed, s,
            [.getDC s.handle, .createCompatibleDC hdcScreen,
             .createCompatibleBitmap hdcScreen s.width s.height,
             .selectObject hdc hbm,
             .deleteObject hbm, .deleteDC hdc, .releaseDC 0 hdcScreen])

/-- The in-place conversion performed by `get_rgb_screenshot`:
`chunks_exact_mut(4)` followed by `pixel.swap(0, 2)` swaps the first and
third byte of every complete 4-byte group and leaves a trailing group of
fewer than 4 bytes untouched. -/
def swapBGRA : List UInt8 → List UInt8
  | b :: g :: r :: a :: rest => r :: g :: b :: a :: swapBGRA rest
  | rest => rest

/-- The typed read-only view `Screenshot` of src/lib.rs: width and height
as `u32` plus the viewed bytes.  The color-order tag is a phantom type in
the source and does not affect the data. -/
structure Screenshot where
  width : Nat
  height : Nat
  image : List UInt8
deriving DecidableEq

/-- `WindowScreenshotBuffer::get_bgr_screenshot`: run `read`, then hand back
a view of the buffer with the session dimensions cast to `u32`. -/
def WindowScreenshotBuffer.get_bgr_screenshot (env : OsEnv)
    (s : WindowScreenshotBuffer) :
    Except CaptureError Screenshot × WindowScreenshotBuffer × List OsEvent :=
  match WindowScreenshotBuffer.read env s with
  | (.error e, s1, tr) => (.error e, s1, tr)
  | (.ok _, s1, tr) =>
    (.ok ⟨u32Cast s1.width, u32Cast s1.height, s1.buffer⟩, s1, tr)

/-- `WindowScreenshotBuffer::get_rgb_screenshot`: run `read`, swap bytes 0
and 2 of every 4-byte group of the buffer in place, then hand back a view of
the (mutated) buffer. -/
def WindowScreenshotBuffer.get_rgb_screenshot (env : OsEnv)
    (s : WindowScreenshotBuffer) :
    Except CaptureError Screenshot × WindowScreenshotBuffer × List OsEvent :=
  match WindowScreenshotBuffer.read env s with
  | (.error e, s1, tr) => (.error e, s1, tr)
  | (.ok _, s1, tr) =>
    let s2 := { s1 with buffer := swapBGRA s1.buffer }
    (.ok ⟨u32Cast s2.width, u32Cast s2.height, s2.buffer⟩, s2, tr)

/-- The record-selection step of `WindowFinder::find`:
`self.windows.iter().filter(|w| w.name.contains(name)).next()`, where the
Rust `String::contains` is substring containment. -/
def findWindow (ws : List Window) (name : List Char) : Option Window :=
  (ws.filter fun w => decide (name <:+: w.name)).head?

/-- The record-selection step of `WindowFinder::find_exact`:
`self.windows.iter().filter(|w| w.name == name).next()`. -/
def findExactWindow (ws : List Window) (name : List Char) : Option Window :=
  (ws.filter fun w => decide (w.name = name)).head?

/-- The window-list holder `WindowFinder` of src/lib.rs. -/
structure WindowFinder where
  windows : List Window

/-- `WindowFinder::new`: enumerate the windows and store the list. -/
def WindowFinder.new (env : OsEnv) : Except CaptureError WindowFinder :=
  (get_windows env).map WindowFinder.mk

/-- `WindowFinder::find`: select the first record whose title contains the
query, and open a capture session on its handle. -/
def WindowFinder.find (env : OsEnv) (self : WindowFinder) (name : List Char) :
    Option (Except CaptureError WindowScreenshotBuffer × List OsEvent) :=
  ((self.windows.filter fun w => decide (name <:+: w.name)).head?).map
    fun w => WindowScreenshotBuffer.new env w.handle

/-- `WindowFinder::find_exact`: select the first record whose title equals
the query, and open a capture session on its handle. -/
def WindowFinder.find_exact (env : OsEnv) (self : WindowFinder)
    (name : List Char) :
    Option (Except CaptureError WindowScreenshotBuffer × List OsEvent) :=
  ((self.windows.filter fun w => decide (w.name = name)).head?).map
    fun w => WindowScreenshotBuffer.new env w.handle

/-- The capture session of src/buffer/window/bgr.rs
(`struct WindowBGRBuffer`): raw window handle, `u32` width and height fields
(never written by `read`) and the owned buffer. -/
structure WindowBGRBuffer where
  handle : Int
  width : Nat
  height : Nat
  buffer : List UInt8
deriving DecidableEq

/-- `WindowBGRBuffer::read` (src/buffer/window/bgr.rs).  Clears the buffer,
sets DPI awareness, acquires the screen DC, queries the window rectangle
(after the DC, so a rectangle failure still releases the DC), acquires the
memory DC and bitmap for the freshly measured rectangle, selects the bitmap,
renders the window with `PrintWindow(.., PW_RENDERFULLCONTENT)`, reserves
capacity (`Vec::reserve`, which changes neither the length nor the contents),
and calls `get_di_bits_into`.  The argument `hdc.into()` moves the
`CreatedHdc` wrapper into the `From` conversion, whose parameter is dropped
as soon as the raw handle is extracted, so the `DeleteDC` drop call executes
during argument evaluation, before `GetDIBits`. -/
def WindowBGRBuffer.read (env : OsEnv) (s : WindowBGRBuffer) :
    Except CaptureError Unit × WindowBGRBuffer × List OsEvent :=
  let s0 := { s with buffer := ([] : List UInt8) }
  match env.getDC s.handle with
  | none =>
    (.error .handleAcquisitionFailed, s0, [.setDpiAwareness, .getDC s.handle])
  | some hdcScreen =>
    match env.getWindowRect s.handle with
    | none =>
      (.error .geometryUnavailable, s0,
        [.setDpiAwareness, .getDC s.handle, .getWindowRect s.handle,
         .releaseDC 0 hdcScreen])
    | some rect =>
      let rw := wrap32 (rect.right - rect.left)
      let rh := wrap32 (rect.bottom - rect.top)
      match env.createCompatibleDC hdcScreen with
      | none =>
        (.error .handleAcquisitionFailed, s0,
          [.setDpiAwareness, .getDC s.handle, .getWindowRect s.handle,
           .createCompatibleDC hdcScreen, .releaseDC 0 hdcScreen])
      | some hdc =>
        match env.createCompatibleBitmap hdcScreen rw rh with
        | none =>
          (.error .handleAcquisitionFailed, s0,
            [.setDpiAwareness, .getDC s.handle, .getWindowRect s.handle,
             .createCompatibleDC hdcScreen,
             .createCompatibleBitmap hdcScreen rw rh,
             .deleteDC hdc, .releaseDC 0 hdcScreen])
        | some hbm =>
          if env.selectObjectOk hdc hbm then
            if env.printWindowOk s.handle hdc then
              let tr : List OsEvent :=
                [.setDpiAwareness, .getDC s.handle, .getWindowRect s.handle,
                 .createCompatibleDC hdcScreen,
                 .createCompatibleBitmap hdcScreen rw rh,
                 .selectObject hdc hbm,
                 .printWindow s.handle hdc PW_RENDERFULLCONTENT,
                 .deleteDC hdc,
                 .getDIBits hdc hbm 0 (u32Cast rh) rw (wrap32 (-rh)) 32,
                 .deleteObject hbm, .releaseDC 0 hdcScreen]
              if env.getDIBitsResult = 0 ∨
                  env.getDIBitsResult = ERROR_INVALID_PARAMETER then
                (.error .extractionFailed, s0, tr)
              else
                (.ok (), { s0 with buffer := writeInto s0.buffer env.dibBytes },
                 tr)
            else
              (.error .renderFailed, s0,
                [.setDpiAwareness, .getDC s.handle, .getWindowRect s.handle,
                 .createCompatibleDC hdcScreen,
                 .createCompatibleBitmap hdcScreen rw rh,
                 .selectObject hdc hbm,
                 .printWindow s.handle hdc PW_RENDERFULLCONTENT,
                 .deleteObject hbm, .deleteDC hdc, .releaseDC 0 hdcScreen])
          else
            (.error .selectionFailed, s0,
              [.setDpiAwareness, .getDC s.handle, .getWindowRect s.handle,
               .createCompatibleDC hdcScreen,
               .createCompatibleBitmap hdcScreen rw rh,
               .selectObject hdc hbm,
               .deleteObject hbm, .deleteDC hdc, .releaseDC 0 hdcScreen])

/-! ## Event classification helpers -/

/-- Is this event one of the three OS-resource acquisitions named by the
specification (screen DC, compatible memory DC, compatible bitmap)? -/
def OsEvent.isAcquire : OsEvent → Bool
  | .getDC _ => true
  | .createCompatibleDC _ => true
  | .createCompatibleBitmap _ _ _ => true
  | _ => false

/-- Is this event a `PrintWindow` render call? -/
def OsEvent.isPrintWindowEvent : OsEvent → Bool
  | .printWindow _ _ _ => true
  | _ => false

/-- Is this event a `GetDC` acquisition? -/
def OsEvent.isGetDC : OsEvent → Bool
  | .getDC _ => true
  | _ => false

/-- Is this event a `CreateCompatibleDC` acquisition? -/
def OsEvent.isCreateDC : OsEvent → Bool
  | .createCompatibleDC _ => true
  | _ => false

/-- Is this event a `CreateCompatibleBitmap` acquisition? -/
def OsEvent.isCreateBitmap : OsEvent → Bool
  | .createCompatibleBitmap _ _ _ => true
  | _ => false

/-- Is this event a `DeleteDC` release (Drop of the memory-DC wrapper)? -/
def OsEvent.isDeleteDC : OsEvent → Bool
  | .deleteDC _ => true
  | _ => false

/-- Is this event a `DeleteObject` release (Drop of the bitmap wrapper)? -/
def OsEvent.isDeleteObject : OsEvent → Bool
  | .deleteObject _ => true
  | _ => false

/-- The window handles the `ReleaseDC` calls of a trace are addressed to,
in order. -/
def releaseTargets (tr : List OsEvent) : List Int :=
  tr.filterMap fun e =>
    match e with
    | .releaseDC hwnd _ => some hwnd
    | _ => none

/-! ## Concrete OS oracles used as witnesses and counterexamples -/

/-- A fully successful oracle: every window has a 1 by 1 rectangle, every
handle acquisition succeeds, rendering and selection succeed, `GetDIBits`
reports one scanline copied and writes four bytes. -/
def envOk : OsEnv where
  enumWindows := []
  enumAborts := false
  getWindowRect := fun _ => some ⟨0, 0, 1, 1⟩
  getDC := fun _ => some 10
  createCompatibleDC := fun _ => some 11
  createCompatibleBitmap := fun _ _ _ => some 12
  selectObjectOk := fun _ _ => true
  printWindowOk := fun _ _ => true
  getDIBitsResult := 1
  dibBytes := [1, 2, 3, 4]

/-- A session of the src/lib.rs implementation as `new` builds it under
`envOk` for handle 1: a 1 by 1 window with a 4-byte zeroed buffer. -/
def sScr : WindowScreenshotBuffer := ⟨1, 1, 1, [0, 0, 0, 0]⟩

/-- A session of the src/buffer/window/bgr.rs implementation, with stale
contents in its buffer. -/
def sBgr : WindowBGRBuffer := ⟨1, 0, 0, [9, 9, 9, 9]⟩

/-- An oracle as the specification describes the OS on a degenerate window:
the rectangle is 0 by 0 and `CreateCompatibleBitmap` rejects non-positive
dimensions.  All other calls succeed. -/
def envZero : OsEnv where
  enumWindows := []
  enumAborts := false
  getWindowRect := fun _ => some ⟨0, 0, 0, 0⟩
  getDC := fun _ => some 10
  createCompatibleDC := fun _ => some 11
  createCompatibleBitmap := fun _ w h => if w ≤ 0 ∨ h ≤ 0 then none else some 12
  selectObjectOk := fun _ _ => true
  printWindowOk := fun _ _ => true
  getDIBitsResult := 1
  dibBytes := []

/-- A 0 by 0 session as `WindowScreenshotBuffer.new` builds it under
`envZero`. -/
def sZero : WindowScreenshotBuffer := ⟨1, 0, 0, []⟩

/-- Three enumerated windows: one visible titled window, one invisible
window, one window with a zero-length title. -/
def envEnum : OsEnv :=
  { envOk with
    enumWindows :=
      [⟨5, true, 2, ['h', 'i'], false⟩,
       ⟨6, false, 3, ['b', 'a', 'd'], false⟩,
       ⟨7, true, 0, [], false⟩] }

/-! ## Helper lemmas -/

theorem writeInto_length (buf bytes : List UInt8) :
    (writeInto buf bytes).length = buf.length := by
  simp only [writeInto, List.length_append, List.length_take, List.length_drop]
  omega

theorem writeInto_of_length_eq {buf bytes : List UInt8}
    (h : bytes.length = buf.length) : writeInto buf bytes = bytes := by
  simp [writeInto, h, List.take_of_length_le, List.drop_of_length_le, h.ge]

theorem swapBGRA_swapBGRA : ∀ l : List UInt8, swapBGRA (swapBGRA l) = l
  | b :: g :: r :: a :: rest => by
      simp only [swapBGRA]
      exact congrArg _ (congrArg _ (congrArg _ (congrArg _
        (swapBGRA_swapBGRA rest))))
  | [] => rfl
  | [x] => rfl
  | [x, y] => rfl
  | [x, y, z] => rfl

/-- What it means for an optional result to be the first record of `l`
satisfying the boolean predicate `p`: `none` when no record satisfies `p`,
and otherwise the satisfying record with no earlier satisfying record. -/
def firstMatch (p : Window → Bool) (l : List Window) : Option Window → Prop
  | none => ∀ w ∈ l, p w = false
  | some w => p w = true ∧ ∃ l1 l2, l = l1 ++ w :: l2 ∧ ∀ x ∈ l1, p x = false

theorem head_filter_firstMatch (p : Window → Bool) (l : List Window) :
    firstMatch p l (l.filter p).head? := by
  induction l with
  | nil => intro w hw; cases hw
  | cons a l ih =>
    by_cases hpa : p a = true
    · simp only [List.filter_cons, hpa, if_true, List.head?_cons]
      exact ⟨hpa, [], l, rfl, by intro x hx; cases hx⟩
    · simp only [List.filter_cons, hpa, if_false, Bool.false_eq_true]
      cases hres : (l.filter p).head? with
      | none =>
        have h0 := ih
        rw [hres] at h0
        intro w hw
        rcases List.mem_cons.mp hw with h | h
        · subst h; exact Bool.eq_false_iff.mpr hpa
        · exact h0 w h
      | some w =>
        have h0 := ih
        rw [hres] at h0
        obtain ⟨hpw, l1, l2, hsplit, hprev⟩ := h0
        refine ⟨hpw, a :: l1, l2, by rw [hsplit]; rfl, ?_⟩
        intro x hx
        rcases List.mem_cons.mp hx with h | h
        · subst h; exact Bool.eq_false_iff.mpr hpa
        · exact hprev x h

theorem filterMap_wl_callback (l : List OsWindow) :
    l.filterMap wl_callback = (l.filter keepsWindow).map windowRecord := by
  induction l with
  | nil => rfl
  | cons a l ih =>
    rw [List.filterMap_cons, List.filter_cons]
    by_cases hv : a.visible = true
    · by_cases hl : a.textLength = 0
      · have hw : wl_callback a = none := by
          simp [wl_callback, hv, hl]
        have hk : keepsWindow a = false := by
          simp [keepsWindow, hv, hl]
        rw [hw, hk]; simpa using ih
      · by_cases hr : a.textReadFails = true
        · have hw : wl_callback a = none := by
            simp [wl_callback, hv, hl, hr]
          have hk : keepsWindow a = false := by
            simp [keepsWindow, hv, hl, hr]
          rw [hw, hk]; simpa using ih
        · have hw : wl_callback a = some (windowRecord a) := by
            simp [wl_callback, hv, hl, hr, windowRecord]
          have hk : keepsWindow a = true := by
            simp [keepsWindow, hv, hl, hr]
          rw [hw, hk]
          simpa using congrArg (windowRecord a :: ·) ih
    · have hw : wl_callback a = none := by
        simp [wl_callback, hv]
      have hk : keepsWindow a = false := by
        simp [keepsWindow, hv]
      rw [hw, hk]; simpa using ih

/-! ## Claim theorems -/

/-- C5: for every pixel buffer whose length is a multiple of 4, applying the
swapped-order conversion of `get_rgb_screenshot` (swapping byte 0 and byte 2
of every 4-byte group) twice restores the original byte sequence. -/
theorem c5_swap_self_inverse (l : List UInt8) (_h : l.length % 4 = 0) :
    swapBGRA (swapBGRA l) = l :=
  swapBGRA_swapBGRA l

theorem c5_swap_self_inverse_witness :
    ([1, 2, 3, 4, 5, 6, 7, 8] : List UInt8).length % 4 = 0 ∧
      swapBGRA (swapBGRA ([1, 2, 3, 4, 5, 6, 7, 8] : List UInt8)) =
        [1, 2, 3, 4, 5, 6, 7, 8] :=
  ⟨by decide, c5_swap_self_inverse [1, 2, 3, 4, 5, 6, 7, 8] (by decide)⟩

/-- C6: for every window list and query, `find` selects the first record in
enumeration order whose title contains the query as a substring and
`find_exact` the first record whose title equals the query exactly; each
selects nothing when no record matches, and each opens a session on exactly
the selected record. -/
theorem c6_find_first_match (l : List Window) (q : List Char) :
    firstMatch (fun w => decide (q <:+: w.name)) l (findWindow l q) ∧
    firstMatch (fun w => decide (w.name = q)) l (findExactWindow l q) ∧
    (∀ env : OsEnv,
      WindowFinder.find env ⟨l⟩ q =
        (findWindow l q).map fun w => WindowScreenshotBuffer.new env w.handle) ∧
    (∀ env : OsEnv,
      WindowFinder.find_exact env ⟨l⟩ q =
        (findExactWindow l q).map fun w =>
          WindowScreenshotBuffer.new env w.handle) :=
  ⟨head_filter_firstMatch _ l, head_filter_firstMatch _ l,
   fun _ => rfl, fun _ => rfl⟩

/-- C7: `get_windows` appends a `{handle, title}` record for exactly the
enumerated windows that are visible and have a non-zero-length, readable
title; it fails with the enumeration error exactly when the OS aborts the
walk itself, per-window failures being skipped; and the appended title is
the OS-reported text whenever the reported length matches it. -/
theorem c7_get_windows_spec (env : OsEnv) :
    (get_windows env = .error .enumerationFailed ↔ env.enumAborts = true) ∧
    (env.enumAborts = false →
      get_windows env =
        .ok ((env.enumWindows.filter keepsWindow).map windowRecord)) ∧
    (∀ w : OsWindow,
      wl_callback w = if keepsWindow w then some (windowRecord w) else none) ∧
    (∀ w : OsWindow, w.textLength = w.text.length → readTitle w = w.text) := by
  refine ⟨?_, ?_, ?_, ?_⟩
  · unfold get_windows
    cases h : env.enumAborts with
    | false => simp
    | true => simp
  · intro h
    unfold get_windows
    rw [h]
    simp [filterMap_wl_callback]
  · intro w
    unfold wl_callback keepsWindow
    cases hv : w.visible with
    | false => simp
    | true =>
      by_cases hl : w.textLength = 0
      · simp [hl]
      · cases hr : w.textReadFails with
        | false => simp [hl, windowRecord]
        | true => simp [hl]
  · intro w h
    unfold readTitle writtenTitleBuf
    rw [h]
    simp

theorem c7_get_windows_spec_witness :
    get_windows envEnum = .ok [⟨5, ['h', 'i']⟩] := by
  have h := (c7_get_windows_spec envEnum).2.1 rfl
  rw [h]
  rfl

/-- C1: the claim states that after open and after every successful read the
pixel buffer length equals `4 * width * height` in both implementations.
The src/buffer/window/bgr.rs implementation violates it: `read` clears the
vector and then only reserves capacity, so `GetDIBits` writes through the
raw pointer while the vector length stays 0.  Under a fully successful
oracle reporting a 1 by 1 window, `WindowBGRBuffer::read` succeeds and
leaves a buffer of length 0 where the claim requires length 4. -/
theorem c1_bgr_read_leaves_empty_buffer :
    envOk.getWindowRect 1 = some ⟨0, 0, 1, 1⟩ ∧
    (WindowBGRBuffer.read envOk sBgr).1 = .ok () ∧
    (WindowBGRBuffer.read envOk sBgr).2.1.buffer.length = 0 :=
  ⟨rfl, rfl, rfl⟩

/-- C2: the claim states that every read renders the window content via the
full-content render before extracting pixels.  The src/lib.rs
implementation `WindowScreenshotBuffer::read` never issues a `PrintWindow`
call on any path, yet completes successfully under a fully successful
oracle; the src/buffer/window/bgr.rs implementation does issue exactly one
render call. -/
theorem c2_screenshot_read_never_renders :
    (∀ (env : OsEnv) (s : WindowScreenshotBuffer),
      (WindowScreenshotBuffer.read env s).2.2.countP
        OsEvent.isPrintWindowEvent = 0) ∧
    (WindowScreenshotBuffer.read envOk sScr).1 = .ok () ∧
    (WindowBGRBuffer.read envOk sBgr).2.2.countP
      OsEvent.isPrintWindowEvent = 1 := by
  refine ⟨?_, rfl, rfl⟩
  intro env s
  cases hg : env.getDC s.handle with
  | none =>
    simp [WindowScreenshotBuffer.read, hg, OsEvent.isPrintWindowEvent]
  | some hd =>
    cases hc : env.createCompatibleDC hd with
    | none =>
      simp [WindowScreenshotBuffer.read, hg, hc, OsEvent.isPrintWindowEvent]
    | some c =>
      cases hb : env.createCompatibleBitmap hd s.width s.height with
      | none =>
        simp [WindowScreenshotBuffer.read, hg, hc, hb,
          OsEvent.isPrintWindowEvent]
      | some b =>
        cases hs : env.selectObjectOk c b with
        | false =>
          simp [WindowScreenshotBuffer.read, hg, hc, hb, hs,
            OsEvent.isPrintWindowEvent]
        | true =>
          simp only [WindowScreenshotBuffer.read, hg, hc, hb, hs,
            eq_self_iff_true, if_true]
          split <;> simp [OsEvent.isPrintWindowEvent]

/-- C3 counterexample: the claim states the screen DC, memory DC and bitmap
are acquired once at session construction and that read calls acquire no
new OS resources.  Under a fully successful oracle, session construction
performs zero of the three acquisitions while a single read performs all
three. -/
theorem c3_read_acquires_each_call :
    (WindowScreenshotBuffer.new envOk 1).2.countP OsEvent.isAcquire = 0 ∧
    (WindowScreenshotBuffer.read envOk sScr).2.2.countP OsEvent.isAcquire = 3 :=
  ⟨rfl, rfl⟩

/-- C3 amended: session construction acquires none of the three OS
resources (it only sets DPI awareness and queries the rectangle), and every
read call that gets past its three acquisitions acquires the screen DC, the
compatible memory DC and the compatible bitmap afresh — one of each — and
releases each of them before returning, the display context always being
released against the default window target. -/
theorem c3_amended_resources_per_read (env : OsEnv) (handle : Int)
    (s : WindowScreenshotBuffer) (d c b : Nat)
    (h1 : env.getDC s.handle = some d)
    (h2 : env.createCompatibleDC d = some c)
    (h3 : env.createCompatibleBitmap d s.width s.height = some b) :
    (WindowScreenshotBuffer.new env handle).2.countP OsEvent.isAcquire = 0 ∧
    (WindowScreenshotBuffer.read env s).2.2.countP OsEvent.isGetDC = 1 ∧
    (WindowScreenshotBuffer.read env s).2.2.countP OsEvent.isCreateDC = 1 ∧
    (WindowScreenshotBuffer.read env s).2.2.countP OsEvent.isCreateBitmap = 1 ∧
    (WindowScreenshotBuffer.read env s).2.2.countP OsEvent.isDeleteObject = 1 ∧
    (WindowScreenshotBuffer.read env s).2.2.countP OsEvent.isDeleteDC = 1 ∧
    releaseTargets (WindowScreenshotBuffer.read env s).2.2 = [0] := by
  have hnew : (WindowScreenshotBuffer.new env handle).2.countP
      OsEvent.isAcquire = 0 := by
    unfold WindowScreenshotBuffer.new
    cases hr : env.getWindowRect handle <;> rfl
  refine ⟨hnew, ?_, ?_, ?_, ?_, ?_, ?_⟩ <;>
  · simp only [WindowScreenshotBuffer.read, h1, h2, h3]
    cases hs : env.selectObjectOk c b with
    | false =>
      simp [releaseTargets, OsEvent.isGetDC, OsEvent.isCreateDC,
        OsEvent.isCreateBitmap, OsEvent.isDeleteObject, OsEvent.isDeleteDC]
    | true =>
      simp only [hs, eq_self_iff_true, if_true]
      split <;>
        simp [releaseTargets, OsEvent.isGetDC, OsEvent.isCreateDC,
          OsEvent.isCreateBitmap, OsEvent.isDeleteObject, OsEvent.isDeleteDC]

theorem c3_amended_resources_per_read_witness :
    (WindowScreenshotBuffer.new envOk 1).2.countP OsEvent.isAcquire = 0 ∧
    (WindowScreenshotBuffer.read envOk sScr).2.2.countP OsEvent.isGetDC = 1 ∧
    releaseTargets (WindowScreenshotBuffer.read envOk sScr).2.2 = [0] := by
  have h := c3_amended_resources_per_read envOk 1 sScr 10 11 12 rfl rfl rfl
  exact ⟨h.1, h.2.1, h.2.2.2.2.2.2⟩

/-- C4 counterexample: the claim asserts that a 0 by 0 window yields, via
open followed by read, a zero-length buffer with no error from either call,
while also recording that the bitmap constructor fails for non-positive
dimensions.  Under an oracle that behaves as that bitmap clause specifies
(`envZero` rejects a zero-dimension bitmap), open indeed succeeds with an
empty buffer, but read returns an error, refuting the no-error-from-read
half of the claim. -/
theorem c4_zero_window_read_errors :
    (WindowScreenshotBuffer.new envZero 1).1 = .ok sZero ∧
    sZero.buffer.length = 0 ∧
    (WindowScreenshotBuffer.read envZero sZero).1 =
      .error .handleAcquisitionFailed :=
  ⟨rfl, rfl, rfl⟩

/-- C4 amended: for a window whose rectangle is 0 by 0, open succeeds with
width 0, height 0 and a zero-length buffer and reports no error; the
subsequent read, however, propagates the OS verdict on the degenerate
geometry instead of succeeding unconditionally: it fails with the
handle-acquisition error when the OS rejects the zero-dimension bitmap (as
the bitmap-guard clause of the specification says it does), and fails with
the extraction error when the bitmap is accepted but `GetDIBits` reports
zero scanlines copied. -/
theorem c4_amended_zero_window (env : OsEnv) (handle : Int) (r : RECT)
    (h1 : env.getWindowRect handle = some r)
    (h2 : r.right = r.left) (h3 : r.bottom = r.top) :
    (WindowScreenshotBuffer.new env handle).1 = .ok ⟨handle, 0, 0, []⟩ ∧
    (∀ d c : Nat, env.getDC handle = some d →
      env.createCompatibleDC d = some c →
      env.createCompatibleBitmap d 0 0 = none →
      (WindowScreenshotBuffer.read env ⟨handle, 0, 0, []⟩).1 =
        .error .handleAcquisitionFailed) ∧
    (∀ d c b : Nat, env.getDC handle = some d →
      env.createCompatibleDC d = some c →
      env.createCompatibleBitmap d 0 0 = some b →
      env.selectObjectOk c b = true →
      env.getDIBitsResult = 0 →
      (WindowScreenshotBuffer.read env ⟨handle, 0, 0, []⟩).1 =
        .error .extractionFailed) := by
  refine ⟨?_, ?_, ?_⟩
  · simp [WindowScreenshotBuffer.new, h1, h2, h3, sub_self, wrap32, usizeCast]
  · intro d c hd hc hb
    simp [WindowScreenshotBuffer.read, hd, hc, hb]
  · intro d c b hd hc hb hsel hres
    simp [WindowScreenshotBuffer.read, hd, hc, hb, hsel, hres]

theorem c4_amended_zero_window_witness :
    (WindowScreenshotBuffer.new envZero 1).1 = .ok ⟨1, 0, 0, []⟩ ∧
    (WindowScreenshotBuffer.read envZero ⟨1, 0, 0, []⟩).1 =
      .error .handleAcquisitionFailed := by
  have h := c4_amended_zero_window envZero 1 ⟨0, 0, 0, 0⟩ rfl rfl rfl
  exact ⟨h.1, h.2.1 10 11 rfl rfl rfl⟩

theorem u32Cast_of_nonneg_lt {x : Int} (h1 : 0 ≤ x) (h2 : x < 2147483648) :
    u32Cast x = x.toNat := by
  unfold u32Cast
  omega

theorem wrap32_eq {x : Int} (h1 : -2147483648 ≤ x) (h2 : x < 2147483648) :
    wrap32 x = x := by
  unfold wrap32
  omega

theorem wrap32_neg_eq {x : Int} (h1 : 0 ≤ x) (h2 : x < 2147483648) :
    wrap32 (-x) = -x := by
  unfold wrap32
  omega

/-- C8: every read extracts the bitmap through a `GetDIBits` call requesting
32 bits per pixel and a negated height (top-down row order), asking for
`height` scanlines from scanline 0, and the read fails with the extraction
error exactly when the OS reports zero scanlines copied or returns the
invalid-parameter value 87 — in both the src/lib.rs and the
src/buffer/window/bgr.rs implementation (the hypotheses put the oracle on
the path that reaches the extraction call, with geometry in `i32` range). -/
theorem c8_getdibits_format_and_error (env : OsEnv)
    (s : WindowScreenshotBuffer) (t : WindowBGRBuffer) (r : RECT)
    (d c b d2 c2 b2 : Nat)
    (h1 : env.getDC s.handle = some d)
    (h2 : env.createCompatibleDC d = some c)
    (h3 : env.createCompatibleBitmap d s.width s.height = some b)
    (h4 : env.selectObjectOk c b = true)
    (h5 : 0 ≤ s.height) (h6 : s.height < 2147483648)
    (g1 : env.getDC t.handle = some d2)
    (g2 : env.getWindowRect t.handle = some r)
    (g3 : env.createCompatibleDC d2 = some c2)
    (g4 : env.createCompatibleBitmap d2 (r.right - r.left) (r.bottom - r.top)
        = some b2)
    (g5 : env.selectObjectOk c2 b2 = true)
    (g6 : env.printWindowOk t.handle c2 = true)
    (g7 : 0 ≤ r.right - r.left) (g8 : r.right - r.left < 2147483648)
    (g9 : 0 ≤ r.bottom - r.top) (g10 : r.bottom - r.top < 2147483648) :
    OsEvent.getDIBits c b 0 s.height.toNat s.width (-s.height) 32 ∈
      (WindowScreenshotBuffer.read env s).2.2 ∧
    ((WindowScreenshotBuffer.read env s).1 = .error .extractionFailed ↔
      (env.getDIBitsResult = 0 ∨ env.getDIBitsResult = 87)) ∧
    OsEvent.getDIBits c2 b2 0 (r.bottom - r.top).toNat (r.right - r.left)
        (-(r.bottom - r.top)) 32 ∈
      (WindowBGRBuffer.read env t).2.2 ∧
    ((WindowBGRBuffer.read env t).1 = .error .extractionFailed ↔
      (env.getDIBitsResult = 0 ∨ env.getDIBitsResult = 87)) := by
  have hw : wrap32 (r.right - r.left) = r.right - r.left :=
    wrap32_eq (by omega) g8
  have hh : wrap32 (r.bottom - r.top) = r.bottom - r.top :=
    wrap32_eq (by omega) g10
  have hneg : wrap32 (r.top - r.bottom) = r.top - r.bottom :=
    wrap32_eq (by omega) (by omega)
  refine ⟨?_, ?_, ?_, ?_⟩
  · simp only [WindowScreenshotBuffer.read, h1, h2, h3, h4,
      eq_self_iff_true, if_true]
    split <;>
      simp [u32Cast_of_nonneg_lt h5 h6, wrap32_neg_eq h5 h6]
  · simp only [WindowScreenshotBuffer.read, h1, h2, h3, h4,
      eq_self_iff_true, if_true]
    by_cases hP : env.getDIBitsResult = 0 ∨ env.getDIBitsResult = 87
    · simp [hP, ERROR_INVALID_PARAMETER]
    · simp [hP, ERROR_INVALID_PARAMETER]
  · simp only [WindowBGRBuffer.read, g1, g2, hw, hh, g3, g4, g5, g6,
      eq_self_iff_true, if_true]
    split <;>
      simp [u32Cast_of_nonneg_lt g9 g10, wrap32_neg_eq g9 g10, hneg]
  · simp only [WindowBGRBuffer.read, g1, g2, hw, hh, g3, g4, g5, g6,
      eq_self_iff_true, if_true]
    by_cases hP : env.getDIBitsResult = 0 ∨ env.getDIBitsResult = 87
    · simp [hP, ERROR_INVALID_PARAMETER]
    · simp [hP, ERROR_INVALID_PARAMETER]

theorem c8_getdibits_format_and_error_witness :
    OsEvent.getDIBits 11 12 0 sScr.height.toNat sScr.width (-sScr.height) 32 ∈
      (WindowScreenshotBuffer.read envOk sScr).2.2 ∧
    ((WindowScreenshotBuffer.read envOk sScr).1 = .error .extractionFailed ↔
      (envOk.getDIBitsResult = 0 ∨ envOk.getDIBitsResult = 87)) := by
  have h := c8_getdibits_format_and_error envOk sScr sBgr ⟨0, 0, 1, 1⟩
    10 11 12 10 11 12 rfl rfl rfl rfl (by decide) (by decide)
    rfl rfl rfl rfl rfl rfl (by decide) (by decide) (by decide) (by decide)
  exact ⟨h.1, h.2.1⟩

theorem scr_read_release (env : OsEnv) (s : WindowScreenshotBuffer) :
    releaseTargets (WindowScreenshotBuffer.read env s).2.2 =
      (if (env.getDC s.handle).isSome then [0] else []) ∧
    (WindowScreenshotBuffer.read env s).2.2.countP OsEvent.isDeleteDC =
      (if ((env.getDC s.handle).bind env.createCompatibleDC).isSome
        then 1 else 0) ∧
    (WindowScreenshotBuffer.read env s).2.2.countP OsEvent.isDeleteObject =
      (if ((env.getDC s.handle).bind fun hd =>
            (env.createCompatibleDC hd).bind fun _ =>
              env.createCompatibleBitmap hd s.width s.height).isSome
        then 1 else 0) := by
  refine ⟨?_, ?_, ?_⟩ <;>
  · cases hg : env.getDC s.handle with
    | none =>
      simp [WindowScreenshotBuffer.read, hg, releaseTargets,
        OsEvent.isDeleteDC, OsEvent.isDeleteObject]
    | some hd =>
      cases hc : env.createCompatibleDC hd with
      | none =>
        simp [WindowScreenshotBuffer.read, hg, hc, releaseTargets,
          OsEvent.isDeleteDC, OsEvent.isDeleteObject]
      | some c =>
        cases hb : env.createCompatibleBitmap hd s.width s.height with
        | none =>
          simp [WindowScreenshotBuffer.read, hg, hc, hb, releaseTargets,
            OsEvent.isDeleteDC, OsEvent.isDeleteObject]
        | some b =>
          cases hsel : env.selectObjectOk c b with
          | false =>
            simp [WindowScreenshotBuffer.read, hg, hc, hb, hsel,
              releaseTargets, OsEvent.isDeleteDC, OsEvent.isDeleteObject]
          | true =>
            simp only [WindowScreenshotBuffer.read, hg, hc, hb, hsel,
              eq_self_iff_true, if_true]
            split <;>
              simp [releaseTargets, OsEvent.isDeleteDC,
                OsEvent.isDeleteObject, hc, hb]

theorem bgr_read_release (env : OsEnv) (t : WindowBGRBuffer) :
    releaseTargets (WindowBGRBuffer.read env t).2.2 =
      (if (env.getDC t.handle).isSome then [0] else []) ∧
    (WindowBGRBuffer.read env t).2.2.countP OsEvent.isDeleteDC =
      (if ((env.getDC t.handle).bind fun hd =>
            (env.getWindowRect t.handle).bind fun _ =>
              env.createCompatibleDC hd).isSome
        then 1 else 0) ∧
    (WindowBGRBuffer.read env t).2.2.countP OsEvent.isDeleteObject =
      (if ((env.getDC t.handle).bind fun hd =>
            (env.getWindowRect t.handle).bind fun r =>
              (env.createCompatibleDC hd).bind fun _ =>
                env.createCompatibleBitmap hd (wrap32 (r.right - r.left))
                  (wrap32 (r.bottom - r.top))).isSome
        then 1 else 0) := by
  refine ⟨?_, ?_, ?_⟩ <;>
  · cases hg : env.getDC t.handle with
    | none =>
      simp [WindowBGRBuffer.read, hg, releaseTargets,
        OsEvent.isDeleteDC, OsEvent.isDeleteObject]
    | some hd =>
      cases hr : env.getWindowRect t.handle with
      | none =>
        simp [WindowBGRBuffer.read, hg, hr, releaseTargets,
          OsEvent.isDeleteDC, OsEvent.isDeleteObject]
      | some r =>
        cases hc : env.createCompatibleDC hd with
        | none =>
          simp [WindowBGRBuffer.read, hg, hr, hc, releaseTargets,
            OsEvent.isDeleteDC, OsEvent.isDeleteObject]
        | some c =>
          cases hb : env.createCompatibleBitmap hd
              (wrap32 (r.right - r.left)) (wrap32 (r.bottom - r.top)) with
          | none =>
            simp [WindowBGRBuffer.read, hg, hr, hc, hb, releaseTargets,
              OsEvent.isDeleteDC, OsEvent.isDeleteObject]
          | some b =>
            cases hsel : env.selectObjectOk c b with
            | false =>
              simp [WindowBGRBuffer.read, hg, hr, hc, hb, hsel,
                releaseTargets, OsEvent.isDeleteDC, OsEvent.isDeleteObject]
            | true =>
              cases hpw : env.printWindowOk t.handle c with
              | false =>
                simp [WindowBGRBuffer.read, hg, hr, hc, hb, hsel, hpw,
                  releaseTargets, OsEvent.isDeleteDC, OsEvent.isDeleteObject]
              | true =>
                simp only [WindowBGRBuffer.read, hg, hr, hc, hb, hsel, hpw,
                  eq_self_iff_true, if_true]
                split <;>
                  simp [releaseTargets, OsEvent.isDeleteDC,
                    OsEvent.isDeleteObject, hc, hb]

/-- C9: in both implementations, on every exit path of a read, each handle
guard releases its resource exactly once when its scope ends: the screen DC
acquired by `GetDC` is released by exactly one `ReleaseDC` call — always
addressed to the default window target 0, never to the window handle the
context was acquired from — whenever `GetDC` succeeded; the memory DC is
deleted exactly once whenever `CreateCompatibleDC` succeeded; and the
bitmap is deleted exactly once whenever `CreateCompatibleBitmap`
succeeded.  No release happens for a resource that was never acquired. -/
theorem c9_guards_release_once_default_target (env : OsEnv)
    (s : WindowScreenshotBuffer) (t : WindowBGRBuffer) :
    (releaseTargets (WindowScreenshotBuffer.read env s).2.2 =
      (if (env.getDC s.handle).isSome then [0] else [])) ∧
    ((WindowScreenshotBuffer.read env s).2.2.countP OsEvent.isDeleteDC =
      (if ((env.getDC s.handle).bind env.createCompatibleDC).isSome
        then 1 else 0)) ∧
    ((WindowScreenshotBuffer.read env s).2.2.countP OsEvent.isDeleteObject =
      (if ((env.getDC s.handle).bind fun hd =>
            (env.createCompatibleDC hd).bind fun _ =>
              env.createCompatibleBitmap hd s.width s.height).isSome
        then 1 else 0)) ∧
    (releaseTargets (WindowBGRBuffer.read env t).2.2 =
      (if (env.getDC t.handle).isSome then [0] else [])) ∧
    ((WindowBGRBuffer.read env t).2.2.countP OsEvent.isDeleteDC =
      (if ((env.getDC t.handle).bind fun hd =>
            (env.getWindowRect t.handle).bind fun _ =>
              env.createCompatibleDC hd).isSome
        then 1 else 0)) ∧
    ((WindowBGRBuffer.read env t).2.2.countP OsEvent.isDeleteObject =
      (if ((env.getDC t.handle).bind fun hd =>
            (env.getWindowRect t.handle).bind fun r =>
              (env.createCompatibleDC hd).bind fun _ =>
                env.createCompatibleBitmap hd (wrap32 (r.right - r.left))
                  (wrap32 (r.bottom - r.top))).isSome
        then 1 else 0)) :=
  ⟨(scr_read_release env s).1, (scr_read_release env s).2.1,
   (scr_read_release env s).2.2,
   (bgr_read_release env t).1, (bgr_read_release env t).2.1,
   (bgr_read_release env t).2.2⟩

theorem scr_read_state (env : OsEnv) (s : WindowScreenshotBuffer) :
    ((WindowScreenshotBuffer.read env s).2.1.handle = s.handle ∧
     (WindowScreenshotBuffer.read env s).2.1.width = s.width ∧
     (WindowScreenshotBuffer.read env s).2.1.height = s.height) ∧
    ((WindowScreenshotBuffer.read env s).1 = .ok () →
      (WindowScreenshotBuffer.read env s).2.1.buffer =
        writeInto s.buffer env.dibBytes) := by
  cases hg : env.getDC s.handle with
  | none => simp [WindowScreenshotBuffer.read, hg]
  | some hd =>
    cases hc : env.createCompatibleDC hd with
    | none => simp [WindowScreenshotBuffer.read, hg, hc]
    | some c =>
      cases hb : env.createCompatibleBitmap hd s.width s.height with
      | none => simp [WindowScreenshotBuffer.read, hg, hc, hb]
      | some b =>
        cases hsel : env.selectObjectOk c b with
        | false => simp [WindowScreenshotBuffer.read, hg, hc, hb, hsel]
        | true =>
          simp only [WindowScreenshotBuffer.read, hg, hc, hb, hsel,
            eq_self_iff_true, if_true]
          split <;> simp

/-- C10: both view requests first perform a fresh capture before returning
the view: the OS-call trace of a view request is exactly the trace of a
`read`, the returned view shows the freshly captured bytes (the swapped
bytes for the swapped-order view) independently of the previous buffer
contents, a failing capture makes the view request fail rather than serve
the stale buffer, and the request mutates only the buffer field — the
session handle, width and height are unchanged on every path. -/
theorem c10_views_fresh_capture (env : OsEnv) (s : WindowScreenshotBuffer)
    (hlen : env.dibBytes.length = s.buffer.length) :
    ((WindowScreenshotBuffer.get_bgr_screenshot env s).2.1.handle = s.handle ∧
     (WindowScreenshotBuffer.get_bgr_screenshot env s).2.1.width = s.width ∧
     (WindowScreenshotBuffer.get_bgr_screenshot env s).2.1.height =
       s.height) ∧
    ((WindowScreenshotBuffer.get_rgb_screenshot env s).2.1.handle = s.handle ∧
     (WindowScreenshotBuffer.get_rgb_screenshot env s).2.1.width = s.width ∧
     (WindowScreenshotBuffer.get_rgb_screenshot env s).2.1.height =
       s.height) ∧
    ((WindowScreenshotBuffer.get_bgr_screenshot env s).2.2 =
      (WindowScreenshotBuffer.read env s).2.2) ∧
    ((WindowScreenshotBuffer.get_rgb_screenshot env s).2.2 =
      (WindowScreenshotBuffer.read env s).2.2) ∧
    ((WindowScreenshotBuffer.get_bgr_screenshot env s).1 =
      (WindowScreenshotBuffer.read env s).1.map fun _ =>
        ⟨u32Cast s.width, u32Cast s.height, env.dibBytes⟩) ∧
    ((WindowScreenshotBuffer.get_rgb_screenshot env s).1 =
      (WindowScreenshotBuffer.read env s).1.map fun _ =>
        ⟨u32Cast s.width, u32Cast s.height, swapBGRA env.dibBytes⟩) := by
  have hstate := scr_read_state env s
  rcases hr : WindowScreenshotBuffer.read env s with ⟨res, s1, tr⟩
  rw [hr] at hstate
  simp at hstate
  obtain ⟨⟨hh1, hh2, hh3⟩, hbuf⟩ := hstate
  cases res with
  | error e =>
    simp [WindowScreenshotBuffer.get_bgr_screenshot,
      WindowScreenshotBuffer.get_rgb_screenshot, hr, Except.map,
      hh1, hh2, hh3]
  | ok u =>
    cases u
    have hb2 : s1.buffer = env.dibBytes :=
      (hbuf rfl).trans (writeInto_of_length_eq hlen)
    simp [WindowScreenshotBuffer.get_bgr_screenshot,
      WindowScreenshotBuffer.get_rgb_screenshot, hr, Except.map,
      hh1, hh2, hh3, hb2]

theorem c10_views_fresh_capture_witness :
    ((WindowScreenshotBuffer.get_bgr_screenshot envOk sScr).1 =
      (WindowScreenshotBuffer.read envOk sScr).1.map fun _ =>
        ⟨u32Cast sScr.width, u32Cast sScr.height, envOk.dibBytes⟩) ∧
    (WindowScreenshotBuffer.get_rgb_screenshot envOk sScr).2.1.handle =
      sScr.handle := by
  have h := c10_views_fresh_capture envOk sScr rfl
  exact ⟨h.2.2.2.2.1, h.2.1.1⟩

end WinStreamshot
